import Mathlib

/-!
Verification of the chatterbox messaging backend.

Shallow embedding of `simple-backend/server.js` (Express route handlers)
and the database layer (`simple-backend/database.js`, and the sqlite variant
of `database.js`): users, messages and server-side sessions are explicit
state, each HTTP route handler is a function from state and request data to
a response paired with the successor state.  The password-hashing primitive
(bcrypt) is external to the core and is modelled as an opaque injective
one-way function with its matching verifier.
-/

namespace Chatterbox

/-- A row of the `users` table: `id INTEGER PRIMARY KEY AUTOINCREMENT`,
`username TEXT UNIQUE NOT NULL`, `password_hash TEXT NOT NULL`. -/
structure User where
  id : Nat
  username : String
  passwordHash : String
  deriving Repr, DecidableEq

/-- A row of the `messages` table: `id INTEGER PRIMARY KEY AUTOINCREMENT`,
`from_user`, `to_user`, `subject`, `body`, `created_at DATETIME DEFAULT
CURRENT_TIMESTAMP`.  Timestamps are modelled as naturals. -/
structure Message where
  id : Nat
  fromUser : String
  toUser : String
  subject : String
  body : String
  createdAt : Nat
  deriving Repr, DecidableEq

/-- A server-side session record (express-session store entry): it may or
may not carry a bound `username` (`req.session.username`). -/
structure SessionRec where
  username : Option String
  deriving Repr, DecidableEq

/-- The whole mutable server state: the two durable tables (rows kept in
insertion order, ids assigned by autoincrement counters), the session store
keyed by session token, and the current clock used for `created_at`. -/
structure DbState where
  users : List User
  messages : List Message
  sessions : List (Nat × SessionRec)
  nextUserId : Nat
  nextMessageId : Nat
  now : Nat
  deriving Repr, DecidableEq

/-- The observable part of an HTTP response: status code plus the JSON
payload fields the handlers actually emit. -/
structure HttpResp where
  status : Nat
  error : Option String := none
  message : Option String := none
  userName : Option String := none
  authenticated : Option Bool := none
  success : Option Bool := none
  msgId : Option Nat := none
  users : Option (List String) := none
  messages : Option (List Message) := none
  deriving Repr, DecidableEq

/-- Model of `bcrypt.hash(password, 12)`.  The spec treats hashing as an
opaque one-way primitive with a verify counterpart; it is modelled as an
injective tagging function so that `bcryptCompare p (bcryptHash p) = true`
and comparison against the hash of a different password is `false`. -/
def bcryptHash (password : String) : String :=
  "bcrypt12$" ++ password

/-- Model of `bcrypt.compare(password, hash)`. -/
def bcryptCompare (password hash : String) : Bool :=
  hash == bcryptHash password

/-- `database.js` `getUserByUsername`: `SELECT * FROM users WHERE
username = ?`, normalising "no row" to an explicit `none`. -/
def getUserByUsername (st : DbState) (username : String) : Option User :=
  st.users.find? (fun u => u.username == username)

/-- `database.js` `createUser`: `INSERT INTO users (username, password_hash)
VALUES (?, ?)`.  The store's UNIQUE constraint on `username` rejects the
insert (the promise rejects) when a row with that username exists;
otherwise one row is appended with the next autoincrement id. -/
def createUser (st : DbState) (username passwordHash : String) :
    Except String (User × DbState) :=
  if st.users.any (fun u => u.username == username) then
    Except.error "UNIQUE constraint failed: users.username"
  else
    let u : User := ⟨st.nextUserId, username, passwordHash⟩
    Except.ok (u, { st with
      users := st.users ++ [u],
      nextUserId := st.nextUserId + 1 })

/-- `database.js` `addMessage`: `INSERT INTO messages (from_user, to_user,
subject, body) VALUES (?, ?, ?, ?)`; the store assigns the autoincrement id
and `created_at = CURRENT_TIMESTAMP`; resolves with `{ id: this.lastID }`. -/
def addMessage (st : DbState) (fromUser toUser subject body : String) :
    Nat × DbState :=
  let m : Message :=
    ⟨st.nextMessageId, fromUser, toUser, subject, body, st.now⟩
  (m.id, { st with
    messages := st.messages ++ [m],
    nextMessageId := st.nextMessageId + 1 })

/-- Descending order on creation time, the `ORDER BY created_at DESC` key. -/
def newerFirst (a b : Message) : Prop :=
  b.createdAt ≤ a.createdAt

instance : DecidableRel newerFirst := fun a b =>
  inferInstanceAs (Decidable (b.createdAt ≤ a.createdAt))

/-- `database.js` `getMessagesForUser`: `SELECT * FROM messages WHERE
to_user = ? ORDER BY created_at DESC`.  The table is scanned in insertion
(rowid) order and sorted by the single key `created_at` descending; the
sort is modelled as a stable insertion sort on that key. -/
def getMessagesForUser (st : DbState) (username : String) : List Message :=
  (st.messages.filter (fun m => m.toUser == username)).insertionSort newerFirst

/-- `database.js` `getMessagesFromUser`: `SELECT * FROM messages WHERE
from_user = ? ORDER BY created_at DESC`. -/
def getMessagesFromUser (st : DbState) (username : String) : List Message :=
  (st.messages.filter (fun m => m.fromUser == username)).insertionSort newerFirst

/-- Lexicographic comparison of character lists, the collation SQLite's
`ORDER BY username ASC` applies to `TEXT` columns (bytewise comparison of
the UTF-8 encoding, which coincides with codepoint-lexicographic order). -/
def lexLeB : List Char → List Char → Bool
  | [], _ => true
  | _ :: _, [] => false
  | a :: as, b :: bs =>
    if a < b then true
    else if b < a then false
    else lexLeB as bs

/-- Ascending lexicographic order on usernames. -/
def usernameLe (a b : String) : Prop :=
  lexLeB a.data b.data = true

instance : DecidableRel usernameLe := fun a b =>
  inferInstanceAs (Decidable (lexLeB a.data b.data = true))

/-- Update/insert the session record bound to a token (the effect of a
successful `req.session.save()`). -/
def setSession (sessions : List (Nat × SessionRec)) (tok : Nat)
    (r : SessionRec) : List (Nat × SessionRec) :=
  (tok, r) :: sessions.filter (fun p => p.1 != tok)

/-- The username the session middleware exposes for a request: `none` when
the request carries no cookie, the token matches no stored session, or the
record carries no truthy `username` (JS truthiness: the empty string does
not count).  `requireAuth` passes exactly when this is `some`. -/
def authUsername (st : DbState) (tok : Option Nat) : Option String :=
  match tok with
  | none => none
  | some t =>
    match st.sessions.lookup t with
    | none => none
    | some r =>
      match r.username with
      | none => none
      | some u => if u == "" then none else some u

/-- `POST /signup` handler.  `saveOk` tells whether the `req.session.save`
callback receives an error (session-store I/O): on failure the handler
answers 500 after the user row was already inserted. -/
def signup (st : DbState) (tok : Nat) (saveOk : Bool)
    (username password : String) : HttpResp × DbState :=
  if username.length < 3 then
    ({ status := 400, error := some "Username must be at least 3 characters" }, st)
  else if password.length < 6 then
    ({ status := 400, error := some "Password must be at least 6 characters" }, st)
  else
    match getUserByUsername st username with
    | some _ => ({ status := 409, error := some "Username already taken" }, st)
    | none =>
      match createUser st username (bcryptHash password) with
      | Except.error _ =>
        ({ status := 500, error := some "Internal server error" }, st)
      | Except.ok (user, st1) =>
        if saveOk then
          ({ status := 201, message := some "Signup successful",
             userName := some user.username, authenticated := some true },
           { st1 with sessions := setSession st1.sessions tok ⟨some user.username⟩ })
        else
          ({ status := 500, error := some "Failed to create session" }, st1)

/-- `POST /login` handler. -/
def login (st : DbState) (tok : Nat) (saveOk : Bool)
    (username password : String) : HttpResp × DbState :=
  match getUserByUsername st username with
  | none => ({ status := 401, error := some "Invalid credentials" }, st)
  | some user =>
    if bcryptCompare password user.passwordHash then
      if saveOk then
        ({ status := 200, message := some "Login successful",
           userName := some user.username, authenticated := some true },
         { st with sessions := setSession st.sessions tok ⟨some user.username⟩ })
      else
        ({ status := 500, error := some "Failed to create session" }, st)
    else
      ({ status := 401, error := some "Invalid credentials" }, st)

/-- `GET /me` handler: non-failing authentication probe. -/
def me (st : DbState) (tok : Option Nat) : HttpResp × DbState :=
  match authUsername st tok with
  | some u =>
    ({ status := 200, authenticated := some true, userName := some u }, st)
  | none => ({ status := 200, authenticated := some false }, st)

/-- `GET /users` handler (behind `requireAuth`): `SELECT username FROM users
WHERE username != ? ORDER BY username ASC`. -/
def getUsersRoute (st : DbState) (tok : Option Nat) : HttpResp × DbState :=
  match authUsername st tok with
  | none => ({ status := 401, error := some "Not authenticated" }, st)
  | some u =>
    let names :=
      (((st.users.filter (fun r => r.username != u)).map User.username).insertionSort
        usernameLe)
    ({ status := 200, users := some names }, st)

/-- `POST /api/send-message` handler (behind `requireAuth`). -/
def sendMessageRoute (st : DbState) (tok : Option Nat)
    (toUser subject body : String) : HttpResp × DbState :=
  match authUsername st tok with
  | none => ({ status := 401, error := some "Not authenticated" }, st)
  | some fromUser =>
    if toUser == "" || subject == "" || body == "" then
      ({ status := 400, error := some "toUser, subject, and body are required" }, st)
    else if toUser == fromUser then
      ({ status := 400, error := some "Cannot send message to yourself" }, st)
    else
      let r := addMessage st fromUser toUser subject body
      ({ status := 201, message := some "Message sent", msgId := some r.1 }, r.2)

/-- `GET /api/messages/inbox` handler (behind `requireAuth`). -/
def inboxRoute (st : DbState) (tok : Option Nat) : HttpResp × DbState :=
  match authUsername st tok with
  | none => ({ status := 401, error := some "Not authenticated" }, st)
  | some u =>
    ({ status := 200, success := some true,
       messages := some (getMessagesForUser st u) }, st)

/-- `GET /api/messages/sent` handler (behind `requireAuth`). -/
def sentRoute (st : DbState) (tok : Option Nat) : HttpResp × DbState :=
  match authUsername st tok with
  | none => ({ status := 401, error := some "Not authenticated" }, st)
  | some u =>
    ({ status := 200, success := some true,
       messages := some (getMessagesFromUser st u) }, st)

/-- Client-side validation of the compose form (`setupMessageEventListeners`
in the frontend messages module): rejects empty fields, subjects over 100
characters and bodies over 1000 characters; `none` means the form submits. -/
def clientFormError (toUser subject body : String) : Option String :=
  if toUser == "" || subject == "" || body == "" then
    some "Please fill in all fields."
  else if subject.length > 100 then
    some "Subject must be 100 characters or less."
  else if body.length > 1000 then
    some "Message body must be 1000 characters or less."
  else
    none

/-- Strictly descending creation time, with equal creation times resolved in
insertion order (lower autoincrement id first): the order the embedded
stable sort actually produces on a table scanned in rowid order. -/
def descWithInsertionTies (a b : Message) : Prop :=
  b.createdAt < a.createdAt ∨ (a.createdAt = b.createdAt ∧ a.id < b.id)

instance : DecidableRel descWithInsertionTies := fun _ _ =>
  inferInstanceAs (Decidable (_ ∨ _))

/-- The ordering the spec claims: descending creation time with ties broken
by id descending. -/
def descWithIdDescTies (a b : Message) : Prop :=
  b.createdAt < a.createdAt ∨ (a.createdAt = b.createdAt ∧ b.id < a.id)

instance : DecidableRel descWithIdDescTies := fun _ _ =>
  inferInstanceAs (Decidable (_ ∨ _))

/-- Ids in insertion order (autoincrement). -/
def idAsc (a b : Message) : Prop := a.id < b.id

instance : DecidableRel idAsc := fun a b =>
  inferInstanceAs (Decidable (a.id < b.id))

/-- Empty server state. -/
def stEmpty : DbState := ⟨[], [], [], 1, 1, 10⟩

/-- A store holding two messages to `bob` that share one creation second
(`CURRENT_TIMESTAMP` has second granularity, so ties are routine). -/
def stTie : DbState :=
  ⟨[], [⟨1, "alice", "bob", "s1", "b1", 5⟩, ⟨2, "carol", "bob", "s2", "b2", 5⟩],
    [], 1, 3, 10⟩

/-- A store with three accounts and a live session binding token 4 to
`bob`. -/
def stAuth : DbState :=
  ⟨[⟨1, "bob", bcryptHash "secret1"⟩, ⟨2, "alice", bcryptHash "hunter22"⟩,
    ⟨3, "zed", bcryptHash "zzzzzzz"⟩],
    [], [(4, ⟨some "bob"⟩)], 4, 1, 10⟩

/-- A 101-character subject for exercising the missing server-side bound. -/
def longSubject : String := String.mk (List.replicate 101 'a')

/- ### Helper lemmas -/

theorem lexLeB_eq_true_iff :
    ∀ as bs : List Char, lexLeB as bs = true ↔ ¬ List.Lex (· < ·) bs as := by
  intro as
  induction as with
  | nil =>
    intro bs
    simp only [lexLeB]
    exact iff_of_true trivial (List.Lex.not_nil_right _ _)
  | cons a as ih =>
    intro bs
    cases bs with
    | nil =>
      simp only [lexLeB, Bool.false_eq_true, false_iff, not_not]
      exact List.Lex.nil
    | cons b bs =>
      rw [lexLeB]
      by_cases hab : a < b
      · rw [if_pos hab]
        constructor
        · intro _ h
          cases h with
          | cons h => exact absurd hab (lt_irrefl a)
          | rel h => exact absurd h (lt_asymm hab)
        · intro _
          rfl
      · by_cases hba : b < a
        · rw [if_neg hab, if_pos hba]
          simp only [Bool.false_eq_true, false_iff, not_not]
          exact List.Lex.rel hba
        · have heq : a = b := le_antisymm (not_lt.mp hba) (not_lt.mp hab)
          subst heq
          rw [if_neg hab, if_neg hab, List.Lex.cons_iff]
          exact ih bs

theorem usernameLe_iff_le (a b : String) : usernameLe a b ↔ a ≤ b := by
  rw [usernameLe, lexLeB_eq_true_iff, ← not_lt]
  exact not_congr (String.lt_iff_toList_lt.trans Iff.rfl).symm

theorem usernameLe_total (a b : String) : usernameLe a b ∨ usernameLe b a := by
  rw [usernameLe_iff_le, usernameLe_iff_le]
  exact le_total a b

theorem usernameLe_trans {a b c : String} (h₁ : usernameLe a b) (h₂ : usernameLe b c) :
    usernameLe a c := by
  rw [usernameLe_iff_le] at h₁ h₂ ⊢
  exact le_trans h₁ h₂

theorem users_any_eq_false {st : DbState} {username : String}
    (h : getUserByUsername st username = none) :
    (st.users.any (fun u => u.username == username)) = false := by
  rw [getUserByUsername, List.find?_eq_none] at h
  simpa using h

theorem signup_ok_save (st : DbState) (tok : Nat) (username password : String)
    (h3 : 3 ≤ username.length) (h6 : 6 ≤ password.length)
    (hfree : getUserByUsername st username = none) :
    signup st tok true username password =
      ({ status := 201, message := some "Signup successful",
         userName := some username, authenticated := some true },
       { users := st.users ++ [⟨st.nextUserId, username, bcryptHash password⟩],
         messages := st.messages,
         sessions := setSession st.sessions tok ⟨some username⟩,
         nextUserId := st.nextUserId + 1,
         nextMessageId := st.nextMessageId,
         now := st.now }) := by
  have h3' : ¬ username.length < 3 := by omega
  have h6' : ¬ password.length < 6 := by omega
  simp [signup, h3', h6', hfree, createUser, users_any_eq_false hfree]

theorem signup_ok_savefail (st : DbState) (tok : Nat) (username password : String)
    (h3 : 3 ≤ username.length) (h6 : 6 ≤ password.length)
    (hfree : getUserByUsername st username = none) :
    signup st tok false username password =
      ({ status := 500, error := some "Failed to create session" },
       { users := st.users ++ [⟨st.nextUserId, username, bcryptHash password⟩],
         messages := st.messages,
         sessions := st.sessions,
         nextUserId := st.nextUserId + 1,
         nextMessageId := st.nextMessageId,
         now := st.now }) := by
  have h3' : ¬ username.length < 3 := by omega
  have h6' : ¬ password.length < 6 := by omega
  simp [signup, h3', h6', hfree, createUser, users_any_eq_false hfree]

theorem login_ok (st : DbState) (tok : Nat) (user : User) (username password : String)
    (hfind : getUserByUsername st username = some user)
    (hpw : bcryptCompare password user.passwordHash = true) :
    login st tok true username password =
      ({ status := 200, message := some "Login successful",
         userName := some user.username, authenticated := some true },
       { st with sessions := setSession st.sessions tok ⟨some user.username⟩ }) := by
  simp [login, hfind, hpw]

theorem getUserByUsername_append_self (st : DbState) (username : String) (u : User)
    (hfree : getUserByUsername st username = none) (hu : u.username = username) :
    (st.users ++ [u]).find? (fun x => x.username == username) = some u := by
  rw [getUserByUsername] at hfree
  rw [List.find?_append, hfree, Option.none_or]
  simp [List.find?, hu]

theorem authUsername_of_sessions {st : DbState} {tok : Nat} {u : String}
    {rest : List (Nat × SessionRec)} (hu : u ≠ "")
    (hss : st.sessions = (tok, ⟨some u⟩) :: rest) :
    authUsername st (some tok) = some u := by
  have hbeq : (u == "") = false := beq_eq_false_iff_ne.mpr hu
  simp [authUsername, hss, List.lookup, hbeq]

theorem pairwise_orderedInsert_stable (a : Message) :
    ∀ l : List Message, l.Pairwise descWithInsertionTies →
      (∀ b ∈ l, a.id < b.id) →
      (l.orderedInsert newerFirst a).Pairwise descWithInsertionTies := by
  intro l
  induction l with
  | nil =>
    intro _ _
    simp [List.orderedInsert]
  | cons b t ih =>
    intro hp hid
    rw [List.orderedInsert]
    by_cases hr : newerFirst a b
    · rw [if_pos hr]
      rw [List.pairwise_cons]
      refine ⟨?_, hp⟩
      intro x hx
      rcases List.mem_cons.mp hx with rfl | hx
      · rcases lt_or_eq_of_le hr with hlt | heq
        · exact Or.inl hlt
        · exact Or.inr ⟨heq.symm, hid x (List.mem_cons_self _ _)⟩
      · rcases List.rel_of_pairwise_cons hp hx with hlt | ⟨heq, -⟩
        · exact Or.inl (lt_of_lt_of_le hlt hr)
        · rcases lt_or_eq_of_le hr with hblt | hbeq
          · exact Or.inl (heq ▸ hblt)
          · exact Or.inr ⟨hbeq.symm.trans heq, hid x (List.mem_cons_of_mem _ hx)⟩
    · rw [if_neg hr]
      rw [List.pairwise_cons]
      constructor
      · intro y hy
        rcases (List.mem_orderedInsert _).mp hy with rfl | hy
        · exact Or.inl (not_le.mp hr)
        · exact List.rel_of_pairwise_cons hp hy
      · exact ih hp.of_cons (fun c hc => hid c (List.mem_cons_of_mem _ hc))

theorem pairwise_insertionSort_stable :
    ∀ l : List Message, l.Pairwise idAsc →
      (l.insertionSort newerFirst).Pairwise descWithInsertionTies := by
  intro l
  induction l with
  | nil =>
    intro _
    simp [List.insertionSort]
  | cons a t ih =>
    intro hp
    rw [List.insertionSort]
    apply pairwise_orderedInsert_stable
    · exact ih hp.of_cons
    · intro b hb
      exact (List.pairwise_cons.mp hp).1 b ((List.mem_insertionSort newerFirst).mp hb)

/- ### Claim theorems -/

/-- C1: for credentials with `username.length >= 3`, `password.length >= 6`
and an unused username, `signup` answers 201 with the identity, binds the
session to the username, a subsequent `login` with the same credentials
answers 200 with the identity, and `GET /me` reports the username while the
session is live. -/
theorem signup_then_login_then_whoami (st : DbState) (tok tok2 : Nat)
    (username password : String)
    (h3 : 3 ≤ username.length) (h6 : 6 ≤ password.length)
    (hfree : getUserByUsername st username = none) :
    (signup st tok true username password).1.status = 201 ∧
    (signup st tok true username password).1.userName = some username ∧
    authUsername (signup st tok true username password).2 (some tok) = some username ∧
    (me (signup st tok true username password).2 (some tok)).1.userName = some username ∧
    (login (signup st tok true username password).2 tok2 true username password).1.status = 200 ∧
    (login (signup st tok true username password).2 tok2 true username password).1.userName
      = some username ∧
    (me (login (signup st tok true username password).2 tok2 true username password).2
        (some tok2)).1.userName = some username ∧
    (me (login (signup st tok true username password).2 tok2 true username password).2
        (some tok2)).1.authenticated = some true := by
  have hne : username ≠ "" := by
    intro h
    rw [h] at h3
    simp at h3
  have hs := signup_ok_save st tok username password h3 h6 hfree
  have hfind : getUserByUsername (signup st tok true username password).2 username
      = some ⟨st.nextUserId, username, bcryptHash password⟩ := by
    rw [hs]
    exact getUserByUsername_append_self st username _ hfree rfl
  have hauth1 : authUsername (signup st tok true username password).2 (some tok)
      = some username := by
    rw [hs]
    exact authUsername_of_sessions hne rfl
  have hlogin := login_ok (signup st tok true username password).2 tok2
    ⟨st.nextUserId, username, bcryptHash password⟩ username password hfind
    (by simp [bcryptCompare])
  have hauth2 : authUsername
      (login (signup st tok true username password).2 tok2 true username password).2
      (some tok2) = some username := by
    rw [hlogin]
    exact authUsername_of_sessions hne rfl
  refine ⟨by rw [hs], by rw [hs], hauth1, by simp [me, hauth1], by rw [hlogin],
    by rw [hlogin], by simp [me, hauth2], by simp [me, hauth2]⟩

/-- C1 witness at a concrete input. -/
theorem signup_then_login_then_whoami_witness :
    (signup stEmpty 1 true "alice" "secret1").1.status = 201 ∧
    (signup stEmpty 1 true "alice" "secret1").1.userName = some "alice" ∧
    authUsername (signup stEmpty 1 true "alice" "secret1").2 (some 1) = some "alice" ∧
    (me (signup stEmpty 1 true "alice" "secret1").2 (some 1)).1.userName = some "alice" ∧
    (login (signup stEmpty 1 true "alice" "secret1").2 2 true "alice" "secret1").1.status
      = 200 ∧
    (login (signup stEmpty 1 true "alice" "secret1").2 2 true "alice" "secret1").1.userName
      = some "alice" ∧
    (me (login (signup stEmpty 1 true "alice" "secret1").2 2 true "alice" "secret1").2
        (some 2)).1.userName = some "alice" ∧
    (me (login (signup stEmpty 1 true "alice" "secret1").2 2 true "alice" "secret1").2
        (some 2)).1.authenticated = some true :=
  signup_then_login_then_whoami stEmpty 1 2 "alice" "secret1"
    (by decide) (by decide) (by decide)

/-- C2 (amended): inbox and sent return exactly the stored messages whose
recipient (resp. sender) matches, ordered descending by creation time; ties
on creation time come out in insertion order, i.e. id ascending (the query
has no secondary sort key; the stable sort over the rowid-ordered table
scan preserves insertion order among equal keys). -/
theorem inbox_sent_exact_and_ordered (st : DbState) (username : String)
    (hids : st.messages.Pairwise idAsc) :
    (getMessagesForUser st username).Perm
        (st.messages.filter (fun m => m.toUser == username)) ∧
    (getMessagesForUser st username).Sorted newerFirst ∧
    (getMessagesForUser st username).Pairwise descWithInsertionTies ∧
    (getMessagesFromUser st username).Perm
        (st.messages.filter (fun m => m.fromUser == username)) ∧
    (getMessagesFromUser st username).Sorted newerFirst ∧
    (getMessagesFromUser st username).Pairwise descWithInsertionTies := by
  have hin := pairwise_insertionSort_stable _ (hids.filter (fun m => m.toUser == username))
  have hout := pairwise_insertionSort_stable _ (hids.filter (fun m => m.fromUser == username))
  have himp : ∀ {a b : Message}, descWithInsertionTies a b → newerFirst a b := by
    intro a b h
    rcases h with h | ⟨h, -⟩
    · exact le_of_lt h
    · exact le_of_eq h.symm
  exact ⟨List.perm_insertionSort _ _, hin.imp himp, hin,
    List.perm_insertionSort _ _, hout.imp himp, hout⟩

/-- C2 witness at a concrete input. -/
theorem inbox_sent_exact_and_ordered_witness :
    (getMessagesForUser stTie "bob").Perm
        (stTie.messages.filter (fun m => m.toUser == "bob")) ∧
    (getMessagesForUser stTie "bob").Sorted newerFirst ∧
    (getMessagesForUser stTie "bob").Pairwise descWithInsertionTies ∧
    (getMessagesFromUser stTie "bob").Perm
        (stTie.messages.filter (fun m => m.fromUser == "bob")) ∧
    (getMessagesFromUser stTie "bob").Sorted newerFirst ∧
    (getMessagesFromUser stTie "bob").Pairwise descWithInsertionTies :=
  inbox_sent_exact_and_ordered stTie "bob" (by decide)

/-- C2 counterexample: with two messages to `bob` created in the same
second, the inbox comes back with ids in insertion order `[1, 2]`, not id
descending as the claim's tie-break asserts. -/
theorem inbox_tie_not_id_desc :
    (getMessagesForUser stTie "bob").map Message.id = [1, 2] ∧
    ¬ (getMessagesForUser stTie "bob").Pairwise descWithIdDescTies := by
  decide

/-- C3: behind authentication, `GET /users` answers 200 without touching the
state, and its payload is exactly the stored usernames other than the
caller's own, in ascending lexicographic order. -/
theorem listRecipients_complete_sorted (st : DbState) (tok : Option Nat) (u : String)
    (hauth : authUsername st tok = some u) :
    (getUsersRoute st tok).1.status = 200 ∧
    (getUsersRoute st tok).2 = st ∧
    ∃ ns, (getUsersRoute st tok).1.users = some ns ∧
      ns.Perm ((st.users.filter (fun r => r.username != u)).map User.username) ∧
      ns.Sorted (· ≤ ·) := by
  haveI : IsTotal String usernameLe := ⟨usernameLe_total⟩
  haveI : IsTrans String usernameLe := ⟨fun _ _ _ => usernameLe_trans⟩
  refine ⟨by simp [getUsersRoute, hauth], by simp [getUsersRoute, hauth],
    ((st.users.filter (fun r => r.username != u)).map User.username).insertionSort usernameLe,
    by simp [getUsersRoute, hauth], List.perm_insertionSort _ _, ?_⟩
  exact (List.sorted_insertionSort usernameLe _).imp (fun h => (usernameLe_iff_le _ _).mp h)

/-- C3 witness at a concrete input. -/
theorem listRecipients_complete_sorted_witness :
    (getUsersRoute stAuth (some 4)).1.status = 200 ∧
    (getUsersRoute stAuth (some 4)).2 = stAuth ∧
    ∃ ns, (getUsersRoute stAuth (some 4)).1.users = some ns ∧
      ns.Perm ((stAuth.users.filter (fun r => r.username != "bob")).map User.username) ∧
      ns.Sorted (· ≤ ·) :=
  listRecipients_complete_sorted stAuth (some 4) "bob" (by decide)

/-- C4: login with an unknown username and login with a known username but
a wrong password answer with the identical shape — 401, error "Invalid
credentials" — and leave the state untouched, so the two failure causes are
indistinguishable to the caller. -/
theorem login_failures_indistinguishable (st : DbState) (tok1 tok2 : Nat)
    (so1 so2 : Bool) (u1 p1 u2 p2 : String) (user : User)
    (h1 : getUserByUsername st u1 = none)
    (h2 : getUserByUsername st u2 = some user)
    (hpw : bcryptCompare p2 user.passwordHash = false) :
    login st tok1 so1 u1 p1 =
      ({ status := 401, error := some "Invalid credentials" }, st) ∧
    login st tok2 so2 u2 p2 =
      ({ status := 401, error := some "Invalid credentials" }, st) ∧
    (login st tok1 so1 u1 p1).1 = (login st tok2 so2 u2 p2).1 := by
  have e1 : login st tok1 so1 u1 p1 =
      ({ status := 401, error := some "Invalid credentials" }, st) := by
    simp [login, h1]
  have e2 : login st tok2 so2 u2 p2 =
      ({ status := 401, error := some "Invalid credentials" }, st) := by
    simp [login, h2, hpw]
  exact ⟨e1, e2, by rw [e1, e2]⟩

/-- C4 witness at a concrete input. -/
theorem login_failures_indistinguishable_witness :
    login stAuth 7 true "nosuch" "whatever" =
      ({ status := 401, error := some "Invalid credentials" }, stAuth) ∧
    login stAuth 8 true "bob" "wrongpass" =
      ({ status := 401, error := some "Invalid credentials" }, stAuth) ∧
    (login stAuth 7 true "nosuch" "whatever").1 = (login stAuth 8 true "bob" "wrongpass").1 :=
  login_failures_indistinguishable stAuth 7 8 true true "nosuch" "whatever" "bob" "wrongpass"
    ⟨1, "bob", bcryptHash "secret1"⟩ (by decide) (by decide) (by decide)

/-- C5: after a successful signup of a username, a second signup with the
same username (and a valid password) answers 409 "Username already taken"
and returns the state unchanged — no second row is persisted and the stored
record is untouched. -/
theorem duplicate_signup_conflict (st : DbState) (tok tok2 : Nat) (so2 : Bool)
    (username password password2 : String)
    (h3 : 3 ≤ username.length) (h6 : 6 ≤ password.length) (h6b : 6 ≤ password2.length)
    (hfree : getUserByUsername st username = none) :
    (signup st tok true username password).1.status = 201 ∧
    signup (signup st tok true username password).2 tok2 so2 username password2 =
      ({ status := 409, error := some "Username already taken" },
       (signup st tok true username password).2) := by
  have hs := signup_ok_save st tok username password h3 h6 hfree
  have hfind : getUserByUsername (signup st tok true username password).2 username
      = some ⟨st.nextUserId, username, bcryptHash password⟩ := by
    rw [hs]
    exact getUserByUsername_append_self st username _ hfree rfl
  have h3' : ¬ username.length < 3 := by omega
  have h6' : ¬ password2.length < 6 := by omega
  refine ⟨by rw [hs], ?_⟩
  generalize hst1 : (signup st tok true username password).2 = st1 at hfind ⊢
  simp [signup, h3', h6', hfind]

/-- C5 witness at a concrete input. -/
theorem duplicate_signup_conflict_witness :
    (signup stEmpty 1 true "alice" "secret1").1.status = 201 ∧
    signup (signup stEmpty 1 true "alice" "secret1").2 2 true "alice" "secret2" =
      ({ status := 409, error := some "Username already taken" },
       (signup stEmpty 1 true "alice" "secret1").2) :=
  duplicate_signup_conflict stEmpty 1 2 true "alice" "secret1" "secret2"
    (by decide) (by decide) (by decide) (by decide)

/-- C6: behind authentication, send answers 400 and leaves the state (in
particular the message store) unchanged whenever `toUser`, `subject` or
`body` is missing/empty or `toUser` is the caller's own username. -/
theorem send_validation_failure_no_row (st : DbState) (tok : Option Nat)
    (u toUser subject body : String)
    (hauth : authUsername st tok = some u)
    (hbad : toUser = "" ∨ subject = "" ∨ body = "" ∨ toUser = u) :
    (sendMessageRoute st tok toUser subject body).1.status = 400 ∧
    (sendMessageRoute st tok toUser subject body).2 = st := by
  rcases hbad with h | h | h | h
  · constructor <;> simp [sendMessageRoute, hauth, h]
  · constructor <;> simp [sendMessageRoute, hauth, h]
  · constructor <;> simp [sendMessageRoute, hauth, h]
  · constructor <;> · simp [sendMessageRoute, hauth, h]; split <;> rfl

/-- C6 witness at a concrete input (self-send). -/
theorem send_validation_failure_no_row_witness :
    (sendMessageRoute stAuth (some 4) "bob" "hello" "there").1.status = 400 ∧
    (sendMessageRoute stAuth (some 4) "bob" "hello" "there").2 = stAuth :=
  send_validation_failure_no_row stAuth (some 4) "bob" "bob" "hello" "there"
    (by decide) (Or.inr (Or.inr (Or.inr rfl)))

/-- C7: a successful send from A to a distinct B — accepted even when B is
no stored account — returns the fresh id and appends one row that shows up
in B's inbox and A's sent list but in neither A's inbox nor B's sent
list. -/
theorem send_delivers_exactly (st : DbState) (tok : Option Nat)
    (A B subject body : String)
    (hauth : authUsername st tok = some A)
    (hB : B ≠ "") (hsub : subject ≠ "") (hbody : body ≠ "") (hne : B ≠ A)
    (hfresh : ∀ m ∈ st.messages, m.id < st.nextMessageId) :
    (sendMessageRoute st tok B subject body).1.status = 201 ∧
    (sendMessageRoute st tok B subject body).1.msgId = some st.nextMessageId ∧
    (∀ m ∈ st.messages, m.id ≠ st.nextMessageId) ∧
    (⟨st.nextMessageId, A, B, subject, body, st.now⟩ : Message)
      ∈ getMessagesForUser (sendMessageRoute st tok B subject body).2 B ∧
    (⟨st.nextMessageId, A, B, subject, body, st.now⟩ : Message)
      ∈ getMessagesFromUser (sendMessageRoute st tok B subject body).2 A ∧
    (⟨st.nextMessageId, A, B, subject, body, st.now⟩ : Message)
      ∉ getMessagesForUser (sendMessageRoute st tok B subject body).2 A ∧
    (⟨st.nextMessageId, A, B, subject, body, st.now⟩ : Message)
      ∉ getMessagesFromUser (sendMessageRoute st tok B subject body).2 B := by
  have h1 : (B == "") = false := beq_eq_false_iff_ne.mpr hB
  have h2 : (subject == "") = false := beq_eq_false_iff_ne.mpr hsub
  have h3 : (body == "") = false := beq_eq_false_iff_ne.mpr hbody
  have h4 : (B == A) = false := beq_eq_false_iff_ne.mpr hne
  have h5 : (A == B) = false := beq_eq_false_iff_ne.mpr hne.symm
  have e : sendMessageRoute st tok B subject body =
      ({ status := 201, message := some "Message sent", msgId := some st.nextMessageId },
       { st with
          messages := st.messages ++ [⟨st.nextMessageId, A, B, subject, body, st.now⟩],
          nextMessageId := st.nextMessageId + 1 }) := by
    simp [sendMessageRoute, hauth, h1, h2, h3, h4, addMessage]
  rw [e]
  refine ⟨rfl, rfl, fun m hm => Nat.ne_of_lt (hfresh m hm), ?_, ?_, ?_, ?_⟩
  · simp [getMessagesForUser, List.mem_insertionSort, List.mem_filter]
  · simp [getMessagesFromUser, List.mem_insertionSort, List.mem_filter]
  · simp [getMessagesForUser, List.mem_insertionSort, List.mem_filter, h4]
  · simp [getMessagesFromUser, List.mem_insertionSort, List.mem_filter, h5]

/-- C7 witness at a concrete input: `carol` is no stored account. -/
theorem send_delivers_exactly_witness :
    (sendMessageRoute stAuth (some 4) "carol" "Hi" "Hello").1.status = 201 ∧
    (sendMessageRoute stAuth (some 4) "carol" "Hi" "Hello").1.msgId
      = some stAuth.nextMessageId ∧
    (∀ m ∈ stAuth.messages, m.id ≠ stAuth.nextMessageId) ∧
    (⟨stAuth.nextMessageId, "bob", "carol", "Hi", "Hello", stAuth.now⟩ : Message)
      ∈ getMessagesForUser (sendMessageRoute stAuth (some 4) "carol" "Hi" "Hello").2 "carol" ∧
    (⟨stAuth.nextMessageId, "bob", "carol", "Hi", "Hello", stAuth.now⟩ : Message)
      ∈ getMessagesFromUser (sendMessageRoute stAuth (some 4) "carol" "Hi" "Hello").2 "bob" ∧
    (⟨stAuth.nextMessageId, "bob", "carol", "Hi", "Hello", stAuth.now⟩ : Message)
      ∉ getMessagesForUser (sendMessageRoute stAuth (some 4) "carol" "Hi" "Hello").2 "bob" ∧
    (⟨stAuth.nextMessageId, "bob", "carol", "Hi", "Hello", stAuth.now⟩ : Message)
      ∉ getMessagesFromUser (sendMessageRoute stAuth (some 4) "carol" "Hi" "Hello").2 "carol" :=
  send_delivers_exactly stAuth (some 4) "bob" "carol" "Hi" "Hello"
    (by decide) (by decide) (by decide) (by decide) (by decide) (by simp [stAuth])

/-- C8: whenever the session middleware exposes no username for the request
— no cookie, unknown token, or a record with no bound username — each of
the four protected routes answers 401 "Not authenticated" and returns the
state untouched. -/
theorem unauthenticated_fail_closed (st : DbState) (tok : Option Nat)
    (hanon : authUsername st tok = none) :
    getUsersRoute st tok = ({ status := 401, error := some "Not authenticated" }, st) ∧
    (∀ toUser subject body, sendMessageRoute st tok toUser subject body =
      ({ status := 401, error := some "Not authenticated" }, st)) ∧
    inboxRoute st tok = ({ status := 401, error := some "Not authenticated" }, st) ∧
    sentRoute st tok = ({ status := 401, error := some "Not authenticated" }, st) := by
  exact ⟨by simp [getUsersRoute, hanon],
    fun t s b => by simp [sendMessageRoute, hanon],
    by simp [inboxRoute, hanon], by simp [sentRoute, hanon]⟩

/-- C8 witness at a concrete input (a token the session store has never
seen). -/
theorem unauthenticated_fail_closed_witness :
    getUsersRoute stAuth (some 99)
      = ({ status := 401, error := some "Not authenticated" }, stAuth) ∧
    sendMessageRoute stAuth (some 99) "alice" "s" "b"
      = ({ status := 401, error := some "Not authenticated" }, stAuth) ∧
    inboxRoute stAuth (some 99)
      = ({ status := 401, error := some "Not authenticated" }, stAuth) ∧
    sentRoute stAuth (some 99)
      = ({ status := 401, error := some "Not authenticated" }, stAuth) :=
  ⟨(unauthenticated_fail_closed stAuth (some 99) (by decide)).1,
   (unauthenticated_fail_closed stAuth (some 99) (by decide)).2.1 "alice" "s" "b",
   (unauthenticated_fail_closed stAuth (some 99) (by decide)).2.2.1,
   (unauthenticated_fail_closed stAuth (some 99) (by decide)).2.2.2⟩

/-- C9: when the session save fails during signup, the caller receives 500
"Failed to create session", yet the user row stays persisted: the same
credentials then log in with 200, and a repeated signup answers 409. -/
theorem signup_session_failure_keeps_row (st : DbState) (tok tok2 tok3 : Nat)
    (so3 : Bool) (username password password2 : String)
    (h3 : 3 ≤ username.length) (h6 : 6 ≤ password.length) (h6b : 6 ≤ password2.length)
    (hfree : getUserByUsername st username = none) :
    (signup st tok false username password).1.status = 500 ∧
    (signup st tok false username password).1.error = some "Failed to create session" ∧
    getUserByUsername (signup st tok false username password).2 username
      = some ⟨st.nextUserId, username, bcryptHash password⟩ ∧
    (login (signup st tok false username password).2 tok2 true username password).1.status
      = 200 ∧
    (signup (signup st tok false username password).2 tok3 so3 username password2).1.status
      = 409 := by
  have hs := signup_ok_savefail st tok username password h3 h6 hfree
  have hfind : getUserByUsername (signup st tok false username password).2 username
      = some ⟨st.nextUserId, username, bcryptHash password⟩ := by
    rw [hs]
    exact getUserByUsername_append_self st username _ hfree rfl
  have hlogin := login_ok (signup st tok false username password).2 tok2
    ⟨st.nextUserId, username, bcryptHash password⟩ username password hfind
    (by simp [bcryptCompare])
  have h3' : ¬ username.length < 3 := by omega
  have h6' : ¬ password2.length < 6 := by omega
  refine ⟨by rw [hs], by rw [hs], hfind, by rw [hlogin], ?_⟩
  generalize hst1 : (signup st tok false username password).2 = st1 at hfind ⊢
  simp [signup, h3', h6', hfind]

/-- C9 witness at a concrete input. -/
theorem signup_session_failure_keeps_row_witness :
    (signup stEmpty 1 false "alice" "secret1").1.status = 500 ∧
    (signup stEmpty 1 false "alice" "secret1").1.error = some "Failed to create session" ∧
    getUserByUsername (signup stEmpty 1 false "alice" "secret1").2 "alice"
      = some ⟨stEmpty.nextUserId, "alice", bcryptHash "secret1"⟩ ∧
    (login (signup stEmpty 1 false "alice" "secret1").2 2 true "alice" "secret1").1.status
      = 200 ∧
    (signup (signup stEmpty 1 false "alice" "secret1").2 3 true "alice" "secret2").1.status
      = 409 :=
  signup_session_failure_keeps_row stEmpty 1 2 3 true "alice" "secret1" "secret2"
    (by decide) (by decide) (by decide) (by decide)

/-- C10: the server-side send imposes no upper bound on subject or body
length — with valid non-empty fields and a distinct recipient it answers
201 and persists the row regardless of a subject over 100 characters or a
body over 1000 — while the client-side compose handler rejects exactly
those lengths. -/
theorem send_no_server_length_limit (st : DbState) (tok : Option Nat)
    (u toUser subject body : String)
    (hauth : authUsername st tok = some u)
    (hto : toUser ≠ "") (hsub : subject ≠ "") (hbody : body ≠ "") (hne : toUser ≠ u)
    (hlong : 100 < subject.length ∨ 1000 < body.length) :
    (sendMessageRoute st tok toUser subject body).1.status = 201 ∧
    (sendMessageRoute st tok toUser subject body).2.messages
      = st.messages ++ [⟨st.nextMessageId, u, toUser, subject, body, st.now⟩] ∧
    clientFormError toUser subject body ≠ none := by
  have h1 : (toUser == "") = false := beq_eq_false_iff_ne.mpr hto
  have h2 : (subject == "") = false := beq_eq_false_iff_ne.mpr hsub
  have h3 : (body == "") = false := beq_eq_false_iff_ne.mpr hbody
  have h4 : (toUser == u) = false := beq_eq_false_iff_ne.mpr hne
  refine ⟨by simp [sendMessageRoute, hauth, h1, h2, h3, h4, addMessage],
    by simp [sendMessageRoute, hauth, h1, h2, h3, h4, addMessage], ?_⟩
  rcases hlong with h | h
  · simp [clientFormError, h1, h2, h3, h]
  · by_cases hs100 : 100 < subject.length
    · simp [clientFormError, h1, h2, h3, hs100]
    · simp [clientFormError, h1, h2, h3, hs100, h]

/-- C10 witness at a concrete input: a 101-character subject. -/
theorem send_no_server_length_limit_witness :
    (sendMessageRoute stAuth (some 4) "alice" longSubject "hey").1.status = 201 ∧
    (sendMessageRoute stAuth (some 4) "alice" longSubject "hey").2.messages
      = stAuth.messages
        ++ [⟨stAuth.nextMessageId, "bob", "alice", longSubject, "hey", stAuth.now⟩] ∧
    clientFormError "alice" longSubject "hey" ≠ none :=
  send_no_server_length_limit stAuth (some 4) "bob" "alice" longSubject "hey"
    (by decide) (by decide) (by decide) (by decide) (by decide) (Or.inl (by decide))

end Chatterbox
